import Mathlib

/-!
# namesilo-ddns: a shallow embedding of `src/main.go`

The program is one linear run: check the flags, read the cached address, fetch
the current address, stop when both are equal, otherwise list the provider's
records, create or update the A record and write the cache file.

Everything the run reads from outside (flags, the operating system name, the
file system, the HTTP endpoint, the provider client) is a field of `Env`.  The
run returns the ordered list of effects it performed together with the file
system it leaves behind.  Go strings are modelled by Lean strings, Go `int` is
the 64-bit signed integer, and a Go `error` is a value of `GoError` (`nil` is
`none` or the `ok` side of `Except`).
-/

namespace NamesiloDdns

/-! ## Data model -/

/-- A non-nil Go error: either a plain message or a `*strconv.NumError`. -/
inductive GoError where
  | errorString (text : String)
  | NumError (Func Num Err : String)
  deriving DecidableEq, Repr

/-- The provider's record as `namesilo.ResourceRecord` declares it: every field
is a string.  `default` is Go's zero value (all fields empty).  The field
`Type` is written `Type_`, `Type` being reserved in Lean. -/
structure ResourceRecord where
  RecordID : String
  Type_ : String
  Host : String
  Value : String
  TTL : String
  Distance : String
  deriving DecidableEq, Repr, Inhabited

/-- The reply envelope of a create or update call. -/
structure Reply where
  Code : String
  Detail : String
  deriving DecidableEq, Repr, Inhabited

/-- The reply envelope of the list call (`records.Reply`). -/
structure DnsListRecordsReply where
  Code : String
  Detail : String
  ResourceRecord : List ResourceRecord
  deriving DecidableEq, Repr, Inhabited

/-- The value `client.DnsListRecords` returns next to a nil error. -/
structure DnsListRecords where
  Reply : DnsListRecordsReply
  deriving DecidableEq, Repr, Inhabited

structure DnsListRecordsParams where
  Domain : String
  deriving DecidableEq, Repr

structure DnsAddRecordParams where
  Domain : String
  Type_ : String
  Host : String
  Value : String
  Distance : Int
  TTL : Int
  deriving DecidableEq, Repr

structure DnsUpdateRecordParams where
  Domain : String
  ID : String
  Host : String
  Value : String
  Distance : Int
  TTL : Int
  deriving DecidableEq, Repr

/-- What `http.Get` followed by `io.ReadAll` can produce: a transport error, or
a response with its status code and the outcome of reading its body. -/
inductive HttpResult where
  | transportError (err : GoError)
  | response (StatusCode : Int) (body : Except GoError String)

/-- The state of one path of the file system, as `os.Stat` and `os.ReadFile`
see it: `absent` is the case where `os.IsNotExist` holds of the `Stat` error,
`unreadable` the case where the path is there (or `Stat` failed otherwise) and
`ReadFile` fails. -/
inductive FileState where
  | absent
  | content (data : String)
  | unreadable (err : GoError)
  deriving DecidableEq, Repr

/-- One attribute of a structured log entry. -/
inductive Attr where
  | str (key value : String)
  | err (key : String) (value : GoError)
  deriving DecidableEq, Repr

/-- The effects of a run, in program order. -/
inductive Event where
  | Error (msg : String) (attrs : List Attr)
  | Info (msg : String) (attrs : List Attr)
  | Stat (path : String)
  | ReadFile (path : String)
  | Get (url : String)
  | NewTokenTransport (token : String)
  | DnsListRecords (p : DnsListRecordsParams)
  | DnsAddRecord (p : DnsAddRecordParams)
  | DnsUpdateRecord (p : DnsUpdateRecordParams)
  | WriteFile (path data : String)
  deriving DecidableEq, Repr

/-- Everything a run reads from its surroundings.  The provider client, the
HTTP endpoint and the operating system are outside the repository; their
answers are given, one per request. -/
structure Env where
  /-- Flag `-domain`. -/
  domain : String
  /-- Flag `-hostname`. -/
  hostname : String
  /-- Flag `-token`. -/
  token : String
  /-- Flag `-api` (default `https://api.ipify.org`). -/
  api : String
  /-- Value of `runtime.GOOS`. -/
  GOOS : String
  /-- Value of `os.Getenv("TEMP")`. -/
  TEMP : String
  /-- Function `filepath.Join` on two elements. -/
  Join : String → String → String
  /-- File system before the run. -/
  files : String → FileState
  /-- Answer of `http.Get` and of reading the body. -/
  Get : String → HttpResult
  /-- Error of `namesilo.NewTokenTransport`, if any. -/
  NewTokenTransport : String → Option GoError
  DnsListRecords : DnsListRecordsParams → Except GoError DnsListRecords
  DnsAddRecord : DnsAddRecordParams → Except GoError Reply
  DnsUpdateRecord : DnsUpdateRecordParams → Except GoError Reply
  /-- Outcome of `os.WriteFile path data 0644`: `none` when it succeeds,
  otherwise its error and the state in which the failed write leaves the path
  (as before, truncated, or written in part). -/
  WriteFile : String → String → Option (GoError × FileState)

/-- Result of a run: the effects in order and the file system afterwards. -/
structure Run where
  trace : List Event
  files : String → FileState

/-- Prefix a run with effects that happened before it. -/
def Run.after (es : List Event) (r : Run) : Run :=
  ⟨es ++ r.trace, r.files⟩

/-- The file system with `path` in state `st`. -/
def setFile (files : String → FileState) (path : String) (st : FileState) :
    String → FileState :=
  fun p => if p = path then st else files p

/-- The file system with `path` holding `data`. -/
def writeTo (files : String → FileState) (path data : String) : String → FileState :=
  setFile files path (FileState.content data)

/-! ## `strconv.Atoi` (Go standard library, 64-bit `int`) -/

/-- Value of a decimal digit, `none` for any other character. -/
def digitVal (c : Char) : Option Nat :=
  if '0' ≤ c ∧ c ≤ '9' then some (c.toNat - '0'.toNat) else none

/-- The digit loop of `strconv.ParseUint s 10 64`: `none` is a syntax error at
the first non-digit, `some none` an overflow of 64 bits, reported where the
loop meets it. -/
def parseUintLoop : List Char → Nat → Option (Option Nat)
  | [], n => some (some n)
  | c :: cs, n =>
    match digitVal c with
    | none => none
    | some d =>
      if n ≥ (2 ^ 64 - 1) / 10 + 1 then some none
      else if n * 10 + d > 2 ^ 64 - 1 then some none
      else parseUintLoop cs (n * 10 + d)

def errSyntax : String := "invalid syntax"

def errRange : String := "value out of range"

/-- Function `strconv.Atoi`: an optional sign, then one or more decimal
digits, the value within the 64-bit signed range. -/
def Atoi (s : String) : Except GoError Int :=
  let neg := s.toList.head? = some '-'
  let digits :=
    match s.toList with
    | '+' :: cs => cs
    | '-' :: cs => cs
    | cs => cs
  if digits = [] then .error (.NumError "Atoi" s errSyntax)
  else
    match parseUintLoop digits 0 with
    | none => .error (.NumError "Atoi" s errSyntax)
    | some none => .error (.NumError "Atoi" s errRange)
    | some (some un) =>
      if ¬ neg ∧ un ≥ 2 ^ 63 then .error (.NumError "Atoi" s errRange)
      else if neg ∧ un > 2 ^ 63 then .error (.NumError "Atoi" s errRange)
      else .ok (if neg then - (un : Int) else (un : Int))

/-! ## The program -/

/-- Function `getIP` (main.go 167-184): the pair Go returns, the body text and
the error. -/
def getIP (api : String) (Get : String → HttpResult) : String × Option GoError :=
  match Get api with
  | .transportError err => ("", some err)
  | .response StatusCode body =>
    if StatusCode ≠ 200 then
      ("", some (.errorString
        ("http response status code [" ++ toString StatusCode ++ "] is not 200")))
    else
      match body with
      | .error err => ("", some err)
      | .ok b => (b, none)

/-- Function `getNamesiloClient` (main.go 186-194): the error it returns. -/
def getNamesiloClient (env : Env) (token : String) : Option GoError :=
  env.NewTokenTransport token

/-- The path of the cache file (main.go 44-49); empty on any other system. -/
def historyFilepath (env : Env) : String :=
  if env.GOOS = "linux" then env.Join "/var" "namesilo-ddns-history"
  else if env.GOOS = "windows" then env.Join env.TEMP "namesilo-ddns-history"
  else ""

/-- The cached address (main.go 51-61): empty when the file is absent, the
file content when it can be read, the error of `os.ReadFile` otherwise. -/
def readHistory (env : Env) : Except GoError String :=
  match env.files (historyFilepath env) with
  | .absent => .ok ""
  | .content data => .ok data
  | .unreadable err => .error err

/-- The effects of reading the cached address: `Stat` always, `ReadFile`
unless the file is absent. -/
def readHistoryTrace (env : Env) : List Event :=
  match env.files (historyFilepath env) with
  | .absent => [.Stat (historyFilepath env)]
  | _ => [.Stat (historyFilepath env), .ReadFile (historyFilepath env)]

/-- The scan over the listed records (main.go 94-101): the first item whose
host is `hostname.domain` and whose type is `A`; the zero record when the loop
ends without assigning. -/
def findRecord (hostname domain : String) : List ResourceRecord → ResourceRecord
  | [] => default
  | item :: rest =>
    if hostname ++ "." ++ domain = item.Host ∧ item.Type_ = "A" then item
    else findRecord hostname domain rest

/-- Saving the address (main.go 158-163). -/
def saveIP (env : Env) (ip : String) : Run :=
  match env.WriteFile (historyFilepath env) ip with
  | some (err, left) =>
    ⟨[.WriteFile (historyFilepath env) ip,
      .Error "ip write to temp file error" [.err "message" err]],
      setFile env.files (historyFilepath env) left⟩
  | none =>
    ⟨[.WriteFile (historyFilepath env) ip], writeTo env.files (historyFilepath env) ip⟩

/-- The parameters of the create call (main.go 106-113). -/
def addParams (env : Env) (ip : String) : DnsAddRecordParams :=
  ⟨env.domain, "A", env.hostname, ip, 0, 7207⟩

/-- Record not found, add (main.go 104-123).  The code tested after the call is
the one of the list reply `records`; the reply of the call itself is dropped. -/
def addRecord (env : Env) (ip : String) (records : DnsListRecords) : Run :=
  match env.DnsAddRecord (addParams env ip) with
  | .error err =>
    ⟨[.DnsAddRecord (addParams env ip),
      .Error "add dns record error" [.err "message" err]], env.files⟩
  | .ok _ =>
    if records.Reply.Code ≠ "300" then
      ⟨[.DnsAddRecord (addParams env ip),
        .Error "add namesilo records error"
          [.str "code" records.Reply.Code, .str "detail" records.Reply.Detail]], env.files⟩
    else
      Run.after
        [.DnsAddRecord (addParams env ip),
         .Info "add record success"
           [.str "host" (env.hostname ++ "." ++ env.domain), .str "value" ip]]
        (saveIP env ip)

/-- Record found, update (main.go 124-156).  As in `addRecord`, the code tested
after the call is the one of the list reply. -/
def updateRecord (env : Env) (ip : String) (records : DnsListRecords)
    (record : ResourceRecord) : Run :=
  match Atoi record.Distance with
  | .error err =>
    ⟨[.Error "distance string to integer error" [.err "message" err]], env.files⟩
  | .ok distance =>
    match Atoi record.TTL with
    | .error err =>
      ⟨[.Error "ttl string to integer error" [.err "message" err]], env.files⟩
    | .ok ttl =>
      match env.DnsUpdateRecord
          ⟨env.domain, record.RecordID, env.hostname, ip, distance, ttl⟩ with
      | .error err =>
        ⟨[.DnsUpdateRecord ⟨env.domain, record.RecordID, env.hostname, ip, distance, ttl⟩,
          .Error "update dns record error" [.err "message" err]], env.files⟩
      | .ok _ =>
        if records.Reply.Code ≠ "300" then
          ⟨[.DnsUpdateRecord ⟨env.domain, record.RecordID, env.hostname, ip, distance, ttl⟩,
            .Error "update namesilo records error"
              [.str "code" records.Reply.Code, .str "detail" records.Reply.Detail]],
            env.files⟩
        else
          Run.after
            [.DnsUpdateRecord ⟨env.domain, record.RecordID, env.hostname, ip, distance, ttl⟩,
             .Info "update record success"
               [.str "host" (env.hostname ++ "." ++ env.domain), .str "value" ip]]
            (saveIP env ip)

/-- The provider part of `main` (main.go 76-163), entered when the address has
changed.  The branch is chosen by the id of the scanned record (line 104); the
source comments the two branches `record not found, add` and `record found,
update`. -/
def reconcile (env : Env) (ip : String) : Run :=
  match getNamesiloClient env env.token with
  | some err =>
    ⟨[.NewTokenTransport env.token,
      .Error "get namesilo client error" [.err "message" err]], env.files⟩
  | none =>
    match env.DnsListRecords ⟨env.domain⟩ with
    | .error err =>
      ⟨[.NewTokenTransport env.token, .DnsListRecords ⟨env.domain⟩,
        .Error "get namesilo records error" [.err "message" err]], env.files⟩
    | .ok records =>
      if records.Reply.Code ≠ "300" then
        ⟨[.NewTokenTransport env.token, .DnsListRecords ⟨env.domain⟩,
          .Error "get namesilo records error"
            [.str "code" records.Reply.Code, .str "detail" records.Reply.Detail]],
          env.files⟩
      else
        Run.after [.NewTokenTransport env.token, .DnsListRecords ⟨env.domain⟩]
          (if (findRecord env.hostname env.domain records.Reply.ResourceRecord).RecordID = ""
           then addRecord env ip records
           else updateRecord env ip records
            (findRecord env.hostname env.domain records.Reply.ResourceRecord))

/-- Function `main` (main.go 19-165). -/
def main (env : Env) : Run :=
  if env.domain = "" then ⟨[.Error "domain is empty" []], env.files⟩
  else if env.hostname = "" then ⟨[.Error "hostname is empty" []], env.files⟩
  else if env.token = "" then ⟨[.Error "token is empty" []], env.files⟩
  else
    match readHistory env with
    | .error err =>
      ⟨readHistoryTrace env ++ [.Error "get history ip error" [.err "message" err]],
        env.files⟩
    | .ok history =>
      Run.after (readHistoryTrace env ++ [.Get env.api])
        (match getIP env.api env.Get with
         | (_, some err) => ⟨[.Error "get ip error" [.err "message" err]], env.files⟩
         | (ip, none) =>
           if ip = history then ⟨[.Info "ip has not changed" []], env.files⟩
           else reconcile env ip)

/-! ## Observations on a trace -/

/-- The create calls of a trace, in order. -/
def addCalls : List Event → List DnsAddRecordParams
  | [] => []
  | .DnsAddRecord p :: es => p :: addCalls es
  | _ :: es => addCalls es

/-- The update calls of a trace, in order. -/
def updateCalls : List Event → List DnsUpdateRecordParams
  | [] => []
  | .DnsUpdateRecord p :: es => p :: updateCalls es
  | _ :: es => updateCalls es

/-- The list calls of a trace, in order. -/
def listCalls : List Event → List DnsListRecordsParams
  | [] => []
  | .DnsListRecords p :: es => p :: listCalls es
  | _ :: es => listCalls es

/-- The cache writes of a trace, in order, as (path, data). -/
def writes : List Event → List (String × String)
  | [] => []
  | .WriteFile path data :: es => (path, data) :: writes es
  | _ :: es => writes es

/-! ## Concrete surroundings used by the scenarios -/

/-- A Linux host with flags `home` / `example.com`, where every outside call
succeeds: the cache file holds `cache`, the lookup answers 200 with `body`, the
provider lists `records` with code 300, and create, update and the cache write
succeed. -/
def scenario (cache : FileState) (body : String) (records : List ResourceRecord) : Env where
  domain := "example.com"
  hostname := "home"
  token := "secret"
  api := "https://api.ipify.org"
  GOOS := "linux"
  TEMP := ""
  Join := fun a b => a ++ "/" ++ b
  files := fun p => if p = "/var/namesilo-ddns-history" then cache else FileState.absent
  Get := fun _ => HttpResult.response 200 (Except.ok body)
  NewTokenTransport := fun _ => none
  DnsListRecords := fun _ => Except.ok ⟨⟨"300", "success", records⟩⟩
  DnsAddRecord := fun _ => Except.ok ⟨"300", "success"⟩
  DnsUpdateRecord := fun _ => Except.ok ⟨"300", "success"⟩
  WriteFile := fun _ _ => none

/-- The scenario with chosen replies of the create and the update call, both
returned without error. -/
def scenarioReplies (cache : FileState) (body : String) (records : List ResourceRecord)
    (addReply updateReply : Reply) : Env :=
  { scenario cache body records with
    DnsAddRecord := fun _ => Except.ok addReply
    DnsUpdateRecord := fun _ => Except.ok updateReply }

/-- The surroundings `env` with the records of every list reply replaced by
`rs`; code and detail of the reply, and everything else, are kept. -/
def withRecords (env : Env) (rs : List ResourceRecord) : Env :=
  { env with
    DnsListRecords := fun p =>
      match env.DnsListRecords p with
      | .error err => .error err
      | .ok r => .ok ⟨⟨r.Reply.Code, r.Reply.Detail, rs⟩⟩ }

/-! ## Predicates used in the statements -/

/-- The test of the scan as a boolean predicate on one record. -/
def isMatch (hostname domain : String) (r : ResourceRecord) : Bool :=
  decide (hostname ++ "." ++ domain = r.Host ∧ r.Type_ = "A")

/-- A run entered the create branch (main.go 104-123): the branch starts with
the create call. -/
def tookCreatePath (t : List Event) : Bool :=
  t.any fun e =>
    match e with
    | .DnsAddRecord _ => true
    | _ => false

/-- A run entered the update branch (main.go 124-156): the branch either stops
at one of its two parse errors or issues the update call. -/
def tookUpdatePath (t : List Event) : Bool :=
  t.any fun e =>
    match e with
    | .DnsUpdateRecord _ => true
    | .Error msg _ =>
      decide (msg = "distance string to integer error" ∨ msg = "ttl string to integer error")
    | _ => false

/-- The run of `main` in `env` performed no cache write and left the file
system as it was. -/
def cacheUntouched (env : Env) : Prop :=
  writes (main env).trace = [] ∧ (main env).files = env.files

/-- Every step of `main` before the cache write returned without error, `ip`
being the resolved address: the flags are set, the cache was read, the lookup
returned `ip` which differs from the cached address, the client was built, the
listing returned code 300, and the call of the branch taken (create when the
scanned record has an empty id, else update after both fields parsed) returned
a nil error. -/
def AllStepsOk (env : Env) (ip : String) : Prop :=
  env.domain ≠ "" ∧ env.hostname ≠ "" ∧ env.token ≠ "" ∧
  (∃ history, readHistory env = .ok history ∧ ip ≠ history) ∧
  getIP env.api env.Get = (ip, none) ∧
  getNamesiloClient env env.token = none ∧
  ∃ records, env.DnsListRecords ⟨env.domain⟩ = .ok records ∧ records.Reply.Code = "300" ∧
    (((findRecord env.hostname env.domain records.Reply.ResourceRecord).RecordID = "" ∧
        ∃ reply, env.DnsAddRecord (addParams env ip) = .ok reply) ∨
     ((findRecord env.hostname env.domain records.Reply.ResourceRecord).RecordID ≠ "" ∧
        ∃ distance ttl reply,
          Atoi (findRecord env.hostname env.domain records.Reply.ResourceRecord).Distance
            = .ok distance ∧
          Atoi (findRecord env.hostname env.domain records.Reply.ResourceRecord).TTL
            = .ok ttl ∧
          env.DnsUpdateRecord
            ⟨env.domain,
             (findRecord env.hostname env.domain records.Reply.ResourceRecord).RecordID,
             env.hostname, ip, distance, ttl⟩ = .ok reply))

/-- The scenario with the lookup endpoint answering with status `code`. -/
def scenarioStatus (cache : FileState) (code : Int) : Env :=
  { scenario cache "" [] with
    Get := fun _ => HttpResult.response code (Except.ok "Service Unavailable") }

/-! ## Lemmas on observations -/

section Observations

@[simp] theorem addCalls_append (xs ys : List Event) :
    addCalls (xs ++ ys) = addCalls xs ++ addCalls ys := by
  induction xs with
  | nil => rfl
  | cons x xs ih => cases x <;> simp [addCalls, ih]

@[simp] theorem updateCalls_append (xs ys : List Event) :
    updateCalls (xs ++ ys) = updateCalls xs ++ updateCalls ys := by
  induction xs with
  | nil => rfl
  | cons x xs ih => cases x <;> simp [updateCalls, ih]

@[simp] theorem listCalls_append (xs ys : List Event) :
    listCalls (xs ++ ys) = listCalls xs ++ listCalls ys := by
  induction xs with
  | nil => rfl
  | cons x xs ih => cases x <;> simp [listCalls, ih]

@[simp] theorem writes_append (xs ys : List Event) :
    writes (xs ++ ys) = writes xs ++ writes ys := by
  induction xs with
  | nil => rfl
  | cons x xs ih => cases x <;> simp [writes, ih]

@[simp] theorem addCalls_readHistoryTrace (env : Env) :
    addCalls (readHistoryTrace env) = [] := by
  unfold readHistoryTrace; split <;> rfl

@[simp] theorem updateCalls_readHistoryTrace (env : Env) :
    updateCalls (readHistoryTrace env) = [] := by
  unfold readHistoryTrace; split <;> rfl

@[simp] theorem listCalls_readHistoryTrace (env : Env) :
    listCalls (readHistoryTrace env) = [] := by
  unfold readHistoryTrace; split <;> rfl

@[simp] theorem writes_readHistoryTrace (env : Env) :
    writes (readHistoryTrace env) = [] := by
  unfold readHistoryTrace; split <;> rfl

end Observations

/-! ## The scan -/

theorem findRecord_eq_find (hostname domain : String) (records : List ResourceRecord) :
    findRecord hostname domain records
      = ((records.find? (isMatch hostname domain)).getD default) := by
  induction records with
  | nil => rfl
  | cons item rest ih =>
    by_cases h : hostname ++ "." ++ domain = item.Host ∧ item.Type_ = "A"
    · simp [findRecord, isMatch, h]
    · simp only [findRecord, if_neg h, ih]
      simp [List.find?, isMatch, h]

theorem findRecord_of_no_match (hostname domain : String) (records : List ResourceRecord)
    (h : ∀ r ∈ records, ¬ (hostname ++ "." ++ domain = r.Host ∧ r.Type_ = "A")) :
    findRecord hostname domain records = default := by
  induction records with
  | nil => rfl
  | cons item rest ih =>
    have h1 := h item (List.mem_cons_self _ _)
    simp only [findRecord, if_neg h1]
    exact ih (fun r hr => h r (List.mem_cons_of_mem _ hr))

theorem findRecord_of_first (hostname domain : String) (pre post : List ResourceRecord)
    (r : ResourceRecord)
    (hpre : ∀ x ∈ pre, ¬ (hostname ++ "." ++ domain = x.Host ∧ x.Type_ = "A"))
    (hr : hostname ++ "." ++ domain = r.Host ∧ r.Type_ = "A") :
    findRecord hostname domain (pre ++ r :: post) = r := by
  induction pre with
  | nil => simp [findRecord, hr]
  | cons x pre ih =>
    have hx := hpre x (List.mem_cons_self _ _)
    simp only [List.cons_append, findRecord, if_neg hx]
    exact ih (fun y hy => hpre y (List.mem_cons_of_mem _ hy))

theorem findRecord_default_or_match (hostname domain : String)
    (records : List ResourceRecord) :
    findRecord hostname domain records = default ∨
      (findRecord hostname domain records ∈ records ∧
        hostname ++ "." ++ domain = (findRecord hostname domain records).Host ∧
        (findRecord hostname domain records).Type_ = "A") := by
  induction records with
  | nil => exact Or.inl rfl
  | cons item rest ih =>
    by_cases h : hostname ++ "." ++ domain = item.Host ∧ item.Type_ = "A"
    · right
      simp [findRecord, h]
    · simp only [findRecord, if_neg h]
      rcases ih with ih | ih
      · exact Or.inl ih
      · exact Or.inr ⟨List.mem_cons_of_mem _ ih.1, ih.2⟩

theorem fqdn_ne_empty (hostname domain : String) : hostname ++ "." ++ domain ≠ "" := by
  intro h
  have hlen := congrArg String.length h
  simp only [String.length_append] at hlen
  have hdot : ".".length = 1 := by decide
  have hnil : "".length = 0 := by decide
  omega

/-! ## Lemmas on the stages of `main` -/

section Stages

@[simp] theorem Run.after_trace (es : List Event) (r : Run) :
    (Run.after es r).trace = es ++ r.trace := rfl

@[simp] theorem Run.after_files (es : List Event) (r : Run) :
    (Run.after es r).files = r.files := rfl

theorem saveIP_addCalls (env : Env) (ip : String) : addCalls (saveIP env ip).trace = [] := by
  unfold saveIP; split <;> rfl

theorem saveIP_updateCalls (env : Env) (ip : String) :
    updateCalls (saveIP env ip).trace = [] := by
  unfold saveIP; split <;> rfl

theorem saveIP_writes (env : Env) (ip : String) :
    writes (saveIP env ip).trace = [(historyFilepath env, ip)] := by
  unfold saveIP; split <;> rfl

theorem addRecord_addCalls (env : Env) (ip : String) (records : DnsListRecords) :
    addCalls (addRecord env ip records).trace = [addParams env ip] := by
  unfold addRecord
  split
  · rfl
  · split
    · rfl
    · simp [addCalls, saveIP_addCalls]

theorem addRecord_updateCalls (env : Env) (ip : String) (records : DnsListRecords) :
    updateCalls (addRecord env ip records).trace = [] := by
  unfold addRecord
  split
  · rfl
  · split
    · rfl
    · simp [updateCalls, saveIP_updateCalls]

theorem updateRecord_addCalls (env : Env) (ip : String) (records : DnsListRecords)
    (record : ResourceRecord) : addCalls (updateRecord env ip records record).trace = [] := by
  unfold updateRecord
  split
  · rfl
  · split
    · rfl
    · split
      · rfl
      · split
        · rfl
        · simp [addCalls, saveIP_addCalls]

theorem updateRecord_updateCalls (env : Env) (ip : String) (records : DnsListRecords)
    (record : ResourceRecord) (distance ttl : Int)
    (hd : Atoi record.Distance = .ok distance) (ht : Atoi record.TTL = .ok ttl) :
    updateCalls (updateRecord env ip records record).trace
      = [⟨env.domain, record.RecordID, env.hostname, ip, distance, ttl⟩] := by
  unfold updateRecord
  simp only [hd, ht]
  split
  · rfl
  · split
    · rfl
    · simp [updateCalls, saveIP_updateCalls]

theorem updateRecord_of_parse_error (env : Env) (ip : String) (records : DnsListRecords)
    (record : ResourceRecord)
    (h : (∃ err, Atoi record.Distance = .error err) ∨ (∃ err, Atoi record.TTL = .error err)) :
    ∃ err,
      updateRecord env ip records record
        = ⟨[.Error "distance string to integer error" [.err "message" err]], env.files⟩ ∨
      updateRecord env ip records record
        = ⟨[.Error "ttl string to integer error" [.err "message" err]], env.files⟩ := by
  unfold updateRecord
  cases hd : Atoi record.Distance with
  | error e => exact ⟨e, Or.inl rfl⟩
  | ok d =>
    cases ht : Atoi record.TTL with
    | error e => exact ⟨e, Or.inr rfl⟩
    | ok t =>
      rcases h with ⟨e, he⟩ | ⟨e, he⟩
      · rw [hd] at he; cases he
      · rw [ht] at he; cases he

/-- With valid flags, a cache that was read and an address that was fetched
and differs from it, `main` is the reading and the lookup followed by the
provider part. -/
theorem main_of_changed (env : Env) (history ip : String)
    (hd : env.domain ≠ "") (hh : env.hostname ≠ "") (ht : env.token ≠ "")
    (hread : readHistory env = .ok history)
    (hip : getIP env.api env.Get = (ip, none)) (hne : ip ≠ history) :
    main env = Run.after (readHistoryTrace env ++ [.Get env.api]) (reconcile env ip) := by
  unfold main
  simp only [if_neg hd, if_neg hh, if_neg ht, hread, hip, if_neg hne]

/-- With a client and a list reply of code 300, the provider part is the two
calls followed by the create or the update branch. -/
theorem reconcile_of_listed (env : Env) (ip : String) (records : DnsListRecords)
    (hclient : getNamesiloClient env env.token = none)
    (hlist : env.DnsListRecords ⟨env.domain⟩ = .ok records)
    (hcode : records.Reply.Code = "300") :
    reconcile env ip
      = Run.after [.NewTokenTransport env.token, .DnsListRecords ⟨env.domain⟩]
          (if (findRecord env.hostname env.domain records.Reply.ResourceRecord).RecordID = ""
           then addRecord env ip records
           else updateRecord env ip records
            (findRecord env.hostname env.domain records.Reply.ResourceRecord)) := by
  unfold reconcile
  simp only [hclient, hlist, hcode, ne_eq, not_true_eq_false, if_false]

end Stages

/-! ## Record matching -/

/-- C6: the record the scan yields is the first one, in list order, whose host
is exactly `hostname.domain` and whose type is `A`; a record with the right host
and another type, or with type `A` and another host, is never the one yielded;
and when no element passes both tests nothing is selected (the scan yields the
zero record, and whatever it yields that is not the zero record is an element
of the list passing both tests). -/
theorem findRecord_first_exact_match (hostname domain : String)
    (records : List ResourceRecord) :
    (∀ pre post r, records = pre ++ r :: post →
        (∀ x ∈ pre, ¬ (hostname ++ "." ++ domain = x.Host ∧ x.Type_ = "A")) →
        (hostname ++ "." ++ domain = r.Host ∧ r.Type_ = "A") →
        findRecord hostname domain records = r) ∧
    (∀ r, (r.Host = hostname ++ "." ++ domain ∧ r.Type_ ≠ "A") ∨
          (r.Type_ = "A" ∧ r.Host ≠ hostname ++ "." ++ domain) →
        findRecord hostname domain records ≠ r) ∧
    ((∀ r ∈ records, ¬ (hostname ++ "." ++ domain = r.Host ∧ r.Type_ = "A")) →
        findRecord hostname domain records = default) ∧
    (findRecord hostname domain records ≠ default →
        findRecord hostname domain records ∈ records ∧
        (findRecord hostname domain records).Host = hostname ++ "." ++ domain ∧
        (findRecord hostname domain records).Type_ = "A") := by
  refine ⟨?_, ?_, ?_, ?_⟩
  · intro pre post r hsplit hpre hr
    rw [hsplit]
    exact findRecord_of_first hostname domain pre post r hpre hr
  · intro r hr hsel
    rcases findRecord_default_or_match hostname domain records with hd | ⟨_, hh, ht⟩
    · rw [hd] at hsel
      rcases hr with ⟨hhost, _⟩ | ⟨htype, _⟩
      · rw [← hsel] at hhost
        exact fqdn_ne_empty hostname domain hhost.symm
      · rw [← hsel] at htype
        exact absurd htype (by decide)
    · rw [hsel] at hh ht
      rcases hr with ⟨_, hne⟩ | ⟨_, hne⟩
      · exact hne ht
      · exact hne hh.symm
  · exact findRecord_of_no_match hostname domain records
  · intro hne
    rcases findRecord_default_or_match hostname domain records with hd | ⟨hm, hh, ht⟩
    · exact absurd hd hne
    · exact ⟨hm, hh.symm, ht⟩

/-- C6 at a concrete list: a CNAME for the host and an A record for another
host are passed over, and of two exact matches the earlier one is taken. -/
theorem findRecord_first_exact_match_witness :
    findRecord "home" "example.com"
      [⟨"1", "CNAME", "home.example.com", "x", "3600", "0"⟩,
       ⟨"2", "A", "www.example.com", "1.1.1.1", "3600", "0"⟩,
       ⟨"3", "A", "home.example.com", "2.2.2.2", "3600", "10"⟩,
       ⟨"4", "A", "home.example.com", "3.3.3.3", "7207", "0"⟩]
      = ⟨"3", "A", "home.example.com", "2.2.2.2", "3600", "10"⟩ :=
  (findRecord_first_exact_match "home" "example.com" _).1
    [⟨"1", "CNAME", "home.example.com", "x", "3600", "0"⟩,
     ⟨"2", "A", "www.example.com", "1.1.1.1", "3600", "0"⟩]
    [⟨"4", "A", "home.example.com", "3.3.3.3", "7207", "0"⟩]
    ⟨"3", "A", "home.example.com", "2.2.2.2", "3600", "10"⟩
    rfl (by decide) (by decide)

/-! ## The address lookup -/

/-- C9: `getIP` returns an error exactly when the GET fails, the status is not
200 or reading the body fails, and then the string it returns is empty; for a
status other than 200 the message carries the status in decimal; for a 200
response whose body is read, the body is returned unchanged.  A body
`1.2.3.4` followed by a newline is returned with the newline, differs from a
cached `1.2.3.4`, is sent to the provider and written to the cache with the
newline. -/
theorem getIP_result (api : String) (Get : String → HttpResult) :
    ((getIP api Get).2 ≠ none ↔
        ((∃ err, Get api = .transportError err) ∨
         (∃ code body, Get api = .response code body ∧ code ≠ 200) ∨
         (∃ err, Get api = .response 200 (.error err)))) ∧
    ((getIP api Get).2 ≠ none → (getIP api Get).1 = "") ∧
    (∀ code body, Get api = .response code body → code ≠ 200 →
        (getIP api Get).2 = some (.errorString
          ("http response status code [" ++ toString code ++ "] is not 200"))) ∧
    (∀ body, Get api = .response 200 (.ok body) → getIP api Get = (body, none)) ∧
    (getIP "https://api.ipify.org" (fun _ => .response 200 (.ok "1.2.3.4\n"))
        = ("1.2.3.4\n", none) ∧
     addCalls (main (scenario (.content "1.2.3.4") "1.2.3.4\n" [])).trace
        = [⟨"example.com", "A", "home", "1.2.3.4\n", 0, 7207⟩] ∧
     (main (scenario (.content "1.2.3.4") "1.2.3.4\n" [])).files
        "/var/namesilo-ddns-history" = .content "1.2.3.4\n") := by
  refine ⟨?_, ?_, ?_, ?_, ?_, ?_, ?_⟩
  · unfold getIP
    cases hg : Get api with
    | transportError err => simp
    | response code body =>
      by_cases hc : code = 200
      · subst hc
        cases body with
        | error err => simp
        | ok b => simp
      · simp [hc]
  · unfold getIP
    cases hg : Get api with
    | transportError err => simp
    | response code body =>
      by_cases hc : code = 200
      · subst hc
        cases body with
        | error err => simp
        | ok b => simp
      · simp [hc]
  · intro code body hg hc
    simp [getIP, hg, hc]
  · intro body hg
    simp [getIP, hg]
  · rfl
  · decide
  · decide

/-- C9 at a concrete response: status 503. -/
theorem getIP_result_witness :
    (getIP "https://api.ipify.org" (fun _ => .response 503 (.ok "Service Unavailable"))).2
      = some (.errorString "http response status code [503] is not 200") :=
  (getIP_result "https://api.ipify.org"
      (fun _ => .response 503 (.ok "Service Unavailable"))).2.2.1
    503 (.ok "Service Unavailable") rfl (by decide)

/-! ## The change gate -/

/-- C1: with valid flags, a cache read that succeeds and a lookup that
succeeds, when the resolved address equals the cached one `main` makes no
provider call (no list, create or update, and no client is built), writes
nothing and leaves the file system as it was: all it does is read the cache,
fetch the address and log that nothing changed. -/
theorem change_gate (env : Env) (history : String)
    (hd : env.domain ≠ "") (hh : env.hostname ≠ "") (ht : env.token ≠ "")
    (hread : readHistory env = .ok history)
    (hip : getIP env.api env.Get = (history, none)) :
    listCalls (main env).trace = [] ∧ addCalls (main env).trace = [] ∧
    updateCalls (main env).trace = [] ∧ writes (main env).trace = [] ∧
    (main env).files = env.files ∧
    (main env).trace
      = readHistoryTrace env ++ [.Get env.api, .Info "ip has not changed" []] := by
  have hmain : main env
      = Run.after (readHistoryTrace env ++ [.Get env.api])
          ⟨[.Info "ip has not changed" []], env.files⟩ := by
    unfold main
    simp only [if_neg hd, if_neg hh, if_neg ht, hread, hip, if_true]
  rw [hmain]
  simp [listCalls, addCalls, updateCalls, writes]

/-- C1 at the scenario of the specification: cache `1.2.3.4`, resolved
`1.2.3.4`. -/
theorem change_gate_witness :
    listCalls (main (scenario (.content "1.2.3.4") "1.2.3.4" [])).trace = [] ∧
    addCalls (main (scenario (.content "1.2.3.4") "1.2.3.4" [])).trace = [] ∧
    updateCalls (main (scenario (.content "1.2.3.4") "1.2.3.4" [])).trace = [] ∧
    writes (main (scenario (.content "1.2.3.4") "1.2.3.4" [])).trace = [] ∧
    (main (scenario (.content "1.2.3.4") "1.2.3.4" [])).files
      = (scenario (.content "1.2.3.4") "1.2.3.4" []).files ∧
    (main (scenario (.content "1.2.3.4") "1.2.3.4" [])).trace
      = readHistoryTrace (scenario (.content "1.2.3.4") "1.2.3.4" []) ++
          [.Get "https://api.ipify.org", .Info "ip has not changed" []] :=
  change_gate (scenario (.content "1.2.3.4") "1.2.3.4" []) "1.2.3.4"
    (by decide) (by decide) (by decide) rfl rfl

/-! ## The create and update paths -/

/-- C5: in a run that gets as far as the scan (valid flags, cache read,
address fetched and different from the cached one, client built, records
listed with code 300) where no listed record has host `hostname.domain` and
type `A`, `main` issues exactly one create call and no update call, and the
create call has domain = domain, host = hostname, type `A`, value = the
resolved address, distance 0 and ttl 7207. -/
theorem create_path (env : Env) (history ip : String) (records : DnsListRecords)
    (hd : env.domain ≠ "") (hh : env.hostname ≠ "") (ht : env.token ≠ "")
    (hread : readHistory env = .ok history)
    (hip : getIP env.api env.Get = (ip, none)) (hne : ip ≠ history)
    (hclient : getNamesiloClient env env.token = none)
    (hlist : env.DnsListRecords ⟨env.domain⟩ = .ok records)
    (hcode : records.Reply.Code = "300")
    (hnone : ∀ r ∈ records.Reply.ResourceRecord,
      ¬ (r.Host = env.hostname ++ "." ++ env.domain ∧ r.Type_ = "A")) :
    addCalls (main env).trace = [⟨env.domain, "A", env.hostname, ip, 0, 7207⟩] ∧
    updateCalls (main env).trace = [] := by
  have hrec : findRecord env.hostname env.domain records.Reply.ResourceRecord = default :=
    findRecord_of_no_match _ _ _ (fun r hr h => hnone r hr ⟨h.1.symm, h.2⟩)
  have hid : (default : ResourceRecord).RecordID = "" := rfl
  rw [main_of_changed env history ip hd hh ht hread hip hne,
    reconcile_of_listed env ip records hclient hlist hcode, hrec, if_pos hid]
  simp [addCalls, updateCalls, addRecord_addCalls, addRecord_updateCalls, addParams]

/-- C5 at a concrete run: cache `1.2.3.4`, resolved `5.6.7.8`, and a listing
that holds only a CNAME for the host and an A record for another host. -/
theorem create_path_witness :
    addCalls (main (scenario (.content "1.2.3.4") "5.6.7.8"
        [⟨"1", "CNAME", "home.example.com", "x", "3600", "0"⟩,
         ⟨"2", "A", "www.example.com", "1.1.1.1", "3600", "0"⟩])).trace
      = [⟨"example.com", "A", "home", "5.6.7.8", 0, 7207⟩] ∧
    updateCalls (main (scenario (.content "1.2.3.4") "5.6.7.8"
        [⟨"1", "CNAME", "home.example.com", "x", "3600", "0"⟩,
         ⟨"2", "A", "www.example.com", "1.1.1.1", "3600", "0"⟩])).trace = [] :=
  create_path (scenario (.content "1.2.3.4") "5.6.7.8"
      [⟨"1", "CNAME", "home.example.com", "x", "3600", "0"⟩,
       ⟨"2", "A", "www.example.com", "1.1.1.1", "3600", "0"⟩])
    "1.2.3.4" "5.6.7.8"
    ⟨⟨"300", "success",
      [⟨"1", "CNAME", "home.example.com", "x", "3600", "0"⟩,
       ⟨"2", "A", "www.example.com", "1.1.1.1", "3600", "0"⟩]⟩⟩
    (by decide) (by decide) (by decide) rfl rfl (by decide) rfl rfl rfl (by decide)

/-- C4, evaluated where the code breaks it: cache `1.2.3.4`, resolved
`5.6.7.8`, and the listing holds an A record for `home.example.com` whose id is
empty.  The scan finds the record, yet the test `record.RecordID == ""` sends
the run to the branch commented `record not found, add`: no update call is
issued, a create call with distance 0 and ttl 7207 is. -/
theorem update_path_empty_id :
    (∃ r ∈ [(⟨"", "A", "home.example.com", "1.1.1.1", "3600", "10"⟩ : ResourceRecord)],
        r.Host = "home" ++ "." ++ "example.com" ∧ r.Type_ = "A") ∧
    readHistory (scenario (.content "1.2.3.4") "5.6.7.8"
        [⟨"", "A", "home.example.com", "1.1.1.1", "3600", "10"⟩]) = .ok "1.2.3.4" ∧
    getIP "https://api.ipify.org" (scenario (.content "1.2.3.4") "5.6.7.8"
        [⟨"", "A", "home.example.com", "1.1.1.1", "3600", "10"⟩]).Get = ("5.6.7.8", none) ∧
    updateCalls (main (scenario (.content "1.2.3.4") "5.6.7.8"
        [⟨"", "A", "home.example.com", "1.1.1.1", "3600", "10"⟩])).trace = [] ∧
    addCalls (main (scenario (.content "1.2.3.4") "5.6.7.8"
        [⟨"", "A", "home.example.com", "1.1.1.1", "3600", "10"⟩])).trace
      = [⟨"example.com", "A", "home", "5.6.7.8", 0, 7207⟩] := by
  refine ⟨by decide, rfl, rfl, by decide, by decide⟩

/-- The update path away from the empty id: in a run that gets as far as the
scan, where the first listed record with host `hostname.domain` and type `A`
has a non-empty id and distance and ttl strings that `strconv.Atoi` accepts,
`main` issues exactly one update call and no create call, and the update call
carries domain, that record's id, host = hostname, value = the resolved
address, and the parsed distance and ttl. -/
theorem update_path (env : Env) (history ip : String) (records : DnsListRecords)
    (pre post : List ResourceRecord) (record : ResourceRecord) (distance ttl : Int)
    (hd : env.domain ≠ "") (hh : env.hostname ≠ "") (ht : env.token ≠ "")
    (hread : readHistory env = .ok history)
    (hip : getIP env.api env.Get = (ip, none)) (hne : ip ≠ history)
    (hclient : getNamesiloClient env env.token = none)
    (hlist : env.DnsListRecords ⟨env.domain⟩ = .ok records)
    (hcode : records.Reply.Code = "300")
    (hsplit : records.Reply.ResourceRecord = pre ++ record :: post)
    (hpre : ∀ x ∈ pre, ¬ (x.Host = env.hostname ++ "." ++ env.domain ∧ x.Type_ = "A"))
    (hrec : record.Host = env.hostname ++ "." ++ env.domain ∧ record.Type_ = "A")
    (hid : record.RecordID ≠ "")
    (hdist : Atoi record.Distance = .ok distance) (httl : Atoi record.TTL = .ok ttl) :
    updateCalls (main env).trace
      = [⟨env.domain, record.RecordID, env.hostname, ip, distance, ttl⟩] ∧
    addCalls (main env).trace = [] := by
  have hfound : findRecord env.hostname env.domain records.Reply.ResourceRecord = record := by
    rw [hsplit]
    exact findRecord_of_first _ _ pre post record
      (fun x hx h => hpre x hx ⟨h.1.symm, h.2⟩) ⟨hrec.1.symm, hrec.2⟩
  rw [main_of_changed env history ip hd hh ht hread hip hne,
    reconcile_of_listed env ip records hclient hlist hcode, hfound, if_neg hid]
  simp [addCalls, updateCalls, updateRecord_addCalls,
    updateRecord_updateCalls env ip records record distance ttl hdist httl]

/-- The update path at the scenario of the specification: cache `1.2.3.4`,
resolved `5.6.7.8`, record with id `9`, distance `10`, ttl `3600`. -/
theorem update_path_witness :
    updateCalls (main (scenario (.content "1.2.3.4") "5.6.7.8"
        [⟨"9", "A", "home.example.com", "1.2.3.4", "3600", "10"⟩])).trace
      = [⟨"example.com", "9", "home", "5.6.7.8", 10, 3600⟩] ∧
    addCalls (main (scenario (.content "1.2.3.4") "5.6.7.8"
        [⟨"9", "A", "home.example.com", "1.2.3.4", "3600", "10"⟩])).trace = [] :=
  update_path (scenario (.content "1.2.3.4") "5.6.7.8"
      [⟨"9", "A", "home.example.com", "1.2.3.4", "3600", "10"⟩])
    "1.2.3.4" "5.6.7.8"
    ⟨⟨"300", "success", [⟨"9", "A", "home.example.com", "1.2.3.4", "3600", "10"⟩]⟩⟩
    [] [] ⟨"9", "A", "home.example.com", "1.2.3.4", "3600", "10"⟩ 10 3600
    (by decide) (by decide) (by decide) rfl rfl (by decide) rfl rfl rfl rfl
    (by decide) (by decide) (by decide) rfl rfl

/-! ## Parse failure -/

/-- C7, evaluated where the code breaks it: cache `1.2.3.4`, resolved
`5.6.7.8`, and the listing holds an A record for `home.example.com` whose
distance `abc` does not parse and whose id is empty.  The scan finds the
record, yet the test `record.RecordID == ""` sends the run to the branch
commented `record not found, add`, so the distance is never parsed: the run
does not abort, it issues a create call with distance 0 and ttl 7207 and writes
the cache. -/
theorem parse_failure_empty_id :
    (∃ r ∈ [(⟨"", "A", "home.example.com", "1.1.1.1", "3600", "abc"⟩ : ResourceRecord)],
        r.Host = "home" ++ "." ++ "example.com" ∧ r.Type_ = "A" ∧
        Atoi r.Distance = .error (.NumError "Atoi" "abc" "invalid syntax")) ∧
    addCalls (main (scenario (.content "1.2.3.4") "5.6.7.8"
        [⟨"", "A", "home.example.com", "1.1.1.1", "3600", "abc"⟩])).trace
      = [⟨"example.com", "A", "home", "5.6.7.8", 0, 7207⟩] ∧
    writes (main (scenario (.content "1.2.3.4") "5.6.7.8"
        [⟨"", "A", "home.example.com", "1.1.1.1", "3600", "abc"⟩])).trace
      = [("/var/namesilo-ddns-history", "5.6.7.8")] := by
  refine ⟨⟨_, List.mem_singleton.mpr rfl, rfl, rfl, rfl⟩, by decide, by decide⟩

/-- Parse failure away from the empty id: in a run that gets as far as the
scan, where the first listed
record with host `hostname.domain` and type `A` has a non-empty id and its
distance string or its ttl string is rejected by `strconv.Atoi`, `main` stops
at the parse error: it issues no update call and no create call, writes
nothing, leaves the file system as it was, and its last effect is the log
entry of the parse error. -/
theorem parse_failure_fatal (env : Env) (history ip : String) (records : DnsListRecords)
    (pre post : List ResourceRecord) (record : ResourceRecord)
    (hd : env.domain ≠ "") (hh : env.hostname ≠ "") (ht : env.token ≠ "")
    (hread : readHistory env = .ok history)
    (hip : getIP env.api env.Get = (ip, none)) (hne : ip ≠ history)
    (hclient : getNamesiloClient env env.token = none)
    (hlist : env.DnsListRecords ⟨env.domain⟩ = .ok records)
    (hcode : records.Reply.Code = "300")
    (hsplit : records.Reply.ResourceRecord = pre ++ record :: post)
    (hpre : ∀ x ∈ pre, ¬ (x.Host = env.hostname ++ "." ++ env.domain ∧ x.Type_ = "A"))
    (hrec : record.Host = env.hostname ++ "." ++ env.domain ∧ record.Type_ = "A")
    (hid : record.RecordID ≠ "")
    (hparse : (∃ err, Atoi record.Distance = .error err) ∨
      (∃ err, Atoi record.TTL = .error err)) :
    updateCalls (main env).trace = [] ∧ addCalls (main env).trace = [] ∧
    writes (main env).trace = [] ∧ (main env).files = env.files ∧
    ∃ err,
      (main env).trace
        = readHistoryTrace env ++
          [.Get env.api, .NewTokenTransport env.token, .DnsListRecords ⟨env.domain⟩,
           .Error "distance string to integer error" [.err "message" err]] ∨
      (main env).trace
        = readHistoryTrace env ++
          [.Get env.api, .NewTokenTransport env.token, .DnsListRecords ⟨env.domain⟩,
           .Error "ttl string to integer error" [.err "message" err]] := by
  have hfound : findRecord env.hostname env.domain records.Reply.ResourceRecord = record := by
    rw [hsplit]
    exact findRecord_of_first _ _ pre post record
      (fun x hx h => hpre x hx ⟨h.1.symm, h.2⟩) ⟨hrec.1.symm, hrec.2⟩
  rw [main_of_changed env history ip hd hh ht hread hip hne,
    reconcile_of_listed env ip records hclient hlist hcode, hfound, if_neg hid]
  obtain ⟨err, h | h⟩ := updateRecord_of_parse_error env ip records record hparse
  · rw [h]
    exact ⟨by simp [updateCalls], by simp [addCalls], by simp [writes], rfl,
      err, Or.inl (by simp)⟩
  · rw [h]
    exact ⟨by simp [updateCalls], by simp [addCalls], by simp [writes], rfl,
      err, Or.inr (by simp)⟩

/-- Parse failure at a concrete run: the matched record has id `9` and ttl
`1h`. -/
theorem parse_failure_fatal_witness :
    updateCalls (main (scenario (.content "1.2.3.4") "5.6.7.8"
        [⟨"9", "A", "home.example.com", "1.2.3.4", "1h", "10"⟩])).trace = [] ∧
    addCalls (main (scenario (.content "1.2.3.4") "5.6.7.8"
        [⟨"9", "A", "home.example.com", "1.2.3.4", "1h", "10"⟩])).trace = [] ∧
    writes (main (scenario (.content "1.2.3.4") "5.6.7.8"
        [⟨"9", "A", "home.example.com", "1.2.3.4", "1h", "10"⟩])).trace = [] :=
  have h := parse_failure_fatal (scenario (.content "1.2.3.4") "5.6.7.8"
      [⟨"9", "A", "home.example.com", "1.2.3.4", "1h", "10"⟩])
    "1.2.3.4" "5.6.7.8"
    ⟨⟨"300", "success", [⟨"9", "A", "home.example.com", "1.2.3.4", "1h", "10"⟩]⟩⟩
    [] [] ⟨"9", "A", "home.example.com", "1.2.3.4", "1h", "10"⟩
    (by decide) (by decide) (by decide) rfl rfl (by decide) rfl rfl rfl rfl
    (by decide) (by decide) (by decide) (Or.inr ⟨_, rfl⟩)
  ⟨h.1, h.2.1, h.2.2.1⟩

/-! ## The create scenario -/

/-- C8, as the claim states it, fails: in the scenario (hostname `home`, domain
`example.com`, no cache file, resolved `1.2.3.4`, an empty listing) the one
create call has host `home`, not `home.example.com`. -/
theorem create_scenario_counterexample :
    addCalls (main (scenario .absent "1.2.3.4" [])).trace
      = [⟨"example.com", "A", "home", "1.2.3.4", 0, 7207⟩] ∧
    ¬ ∃ p ∈ addCalls (main (scenario .absent "1.2.3.4" [])).trace,
        p.Host = "home.example.com" := by
  refine ⟨by decide, by decide⟩

/-- C8, amended: with hostname `home` and domain `example.com`, no cache file,
resolved address `1.2.3.4`, a listing with code 300 that holds no record for
`home.example.com`, and a create call and a cache write that return no error,
`main` issues exactly one create call, with domain `example.com`, host `home`,
type `A`, value `1.2.3.4`, distance 0 and ttl 7207, issues no update call, and
afterwards the cache file holds exactly `1.2.3.4`. -/
theorem create_scenario (env : Env) (records : DnsListRecords) (reply : Reply)
    (hhost : env.hostname = "home") (hdom : env.domain = "example.com")
    (ht : env.token ≠ "")
    (hcache : env.files (historyFilepath env) = .absent)
    (hip : getIP env.api env.Get = ("1.2.3.4", none))
    (hclient : getNamesiloClient env env.token = none)
    (hlist : env.DnsListRecords ⟨env.domain⟩ = .ok records)
    (hcode : records.Reply.Code = "300")
    (hnone : ∀ r ∈ records.Reply.ResourceRecord, r.Host ≠ "home.example.com")
    (hadd : env.DnsAddRecord ⟨"example.com", "A", "home", "1.2.3.4", 0, 7207⟩ = .ok reply)
    (hwrite : env.WriteFile (historyFilepath env) "1.2.3.4" = none) :
    addCalls (main env).trace = [⟨"example.com", "A", "home", "1.2.3.4", 0, 7207⟩] ∧
    updateCalls (main env).trace = [] ∧
    writes (main env).trace = [(historyFilepath env, "1.2.3.4")] ∧
    (main env).files (historyFilepath env) = .content "1.2.3.4" := by
  have hd : env.domain ≠ "" := by rw [hdom]; decide
  have hh : env.hostname ≠ "" := by rw [hhost]; decide
  have hread : readHistory env = .ok "" := by
    unfold readHistory; rw [hcache]
  have hne : ("1.2.3.4" : String) ≠ "" := by decide
  have hfq : env.hostname ++ "." ++ env.domain = "home.example.com" := by
    rw [hhost, hdom]; decide
  have hrec : findRecord env.hostname env.domain records.Reply.ResourceRecord = default :=
    findRecord_of_no_match _ _ _ (fun r hr h => hnone r hr (by rw [← h.1, hfq]))
  have hid : (default : ResourceRecord).RecordID = "" := rfl
  have hparams : addParams env "1.2.3.4" = ⟨"example.com", "A", "home", "1.2.3.4", 0, 7207⟩ := by
    simp [addParams, hhost, hdom]
  have hcode2 : ¬ records.Reply.Code ≠ "300" := by simp [hcode]
  rw [main_of_changed env "" "1.2.3.4" hd hh ht hread hip hne,
    reconcile_of_listed env "1.2.3.4" records hclient hlist hcode, hrec, if_pos hid]
  unfold addRecord saveIP
  simp only [hparams, hadd, hwrite, if_neg hcode2]
  simp [addCalls, updateCalls, writes, writeTo, setFile]

/-- C8 (amended) at the concrete scenario. -/
theorem create_scenario_witness :
    addCalls (main (scenario .absent "1.2.3.4" [])).trace
      = [⟨"example.com", "A", "home", "1.2.3.4", 0, 7207⟩] ∧
    updateCalls (main (scenario .absent "1.2.3.4" [])).trace = [] ∧
    writes (main (scenario .absent "1.2.3.4" [])).trace
      = [(historyFilepath (scenario .absent "1.2.3.4" []), "1.2.3.4")] ∧
    (main (scenario .absent "1.2.3.4" [])).files
      (historyFilepath (scenario .absent "1.2.3.4" [])) = .content "1.2.3.4" :=
  create_scenario (scenario .absent "1.2.3.4" []) ⟨⟨"300", "success", []⟩⟩ ⟨"300", "success"⟩
    rfl rfl (by decide) rfl rfl rfl rfl rfl (by decide) rfl rfl

/-! ## The reply of the create and update calls -/

/-- C2, evaluated where it fails: the create call returns without error and
its reply carries code 301, and likewise the update call; in both runs `main`
goes on, logs success and writes the cache. -/
theorem call_reply_code_unchecked :
    (scenarioReplies .absent "1.2.3.4" [] ⟨"301", "not applied"⟩ ⟨"300", "success"⟩).DnsAddRecord
        ⟨"example.com", "A", "home", "1.2.3.4", 0, 7207⟩ = .ok ⟨"301", "not applied"⟩ ∧
    (main (scenarioReplies .absent "1.2.3.4" []
        ⟨"301", "not applied"⟩ ⟨"300", "success"⟩)).trace
      = [.Stat "/var/namesilo-ddns-history", .Get "https://api.ipify.org",
         .NewTokenTransport "secret", .DnsListRecords ⟨"example.com"⟩,
         .DnsAddRecord ⟨"example.com", "A", "home", "1.2.3.4", 0, 7207⟩,
         .Info "add record success"
           [.str "host" "home.example.com", .str "value" "1.2.3.4"],
         .WriteFile "/var/namesilo-ddns-history" "1.2.3.4"] ∧
    (main (scenarioReplies .absent "1.2.3.4" []
        ⟨"301", "not applied"⟩ ⟨"300", "success"⟩)).files "/var/namesilo-ddns-history"
      = .content "1.2.3.4" ∧
    (scenarioReplies (.content "1.2.3.4") "5.6.7.8"
        [⟨"9", "A", "home.example.com", "1.2.3.4", "3600", "10"⟩]
        ⟨"300", "success"⟩ ⟨"301", "not applied"⟩).DnsUpdateRecord
        ⟨"example.com", "9", "home", "5.6.7.8", 10, 3600⟩ = .ok ⟨"301", "not applied"⟩ ∧
    writes (main (scenarioReplies (.content "1.2.3.4") "5.6.7.8"
        [⟨"9", "A", "home.example.com", "1.2.3.4", "3600", "10"⟩]
        ⟨"300", "success"⟩ ⟨"301", "not applied"⟩)).trace
      = [("/var/namesilo-ddns-history", "5.6.7.8")] := by
  refine ⟨rfl, by decide, by decide, rfl, by decide⟩

/-! ## Abort paths -/

theorem Run.after_after (xs ys : List Event) (r : Run) :
    Run.after xs (Run.after ys r) = Run.after (xs ++ ys) r := by
  simp [Run.after]

theorem saveIP_trace (env : Env) (ip : String) :
    (saveIP env ip).trace = [.WriteFile (historyFilepath env) ip] ∨
    ∃ err, (saveIP env ip).trace
      = [.WriteFile (historyFilepath env) ip,
         .Error "ip write to temp file error" [.err "message" err]] := by
  unfold saveIP
  split
  · rename_i err left _
    exact Or.inr ⟨err, rfl⟩
  · exact Or.inl rfl

/-- Either the run wrote nothing and left the file system alone, or every step
before the write returned without error and the run is a write-free sequence of
effects followed by the saving of the address. -/
theorem main_cases (env : Env) :
    cacheUntouched env ∨
    ∃ ip pre, AllStepsOk env ip ∧ writes pre = [] ∧
      main env = Run.after pre (saveIP env ip) := by
  unfold cacheUntouched main
  split
  · left; exact ⟨rfl, rfl⟩
  split
  · left; exact ⟨rfl, rfl⟩
  split
  · left; exact ⟨rfl, rfl⟩
  rename_i hd hh ht
  split
  · left; simp [writes]
  rename_i history hread
  split
  · left; simp [writes]
  rename_i ip hip
  split
  · left; simp [writes]
  rename_i hne
  unfold reconcile
  split
  · left; simp [writes]
  rename_i hclient
  split
  · left; simp [writes]
  rename_i records hlist
  split
  · left; simp [writes]
  rename_i hcode
  split
  · rename_i hid
    unfold addRecord
    split
    · left; simp [writes]
    rename_i reply hadd
    split
    · left; simp [writes]
    right
    refine ⟨ip,
      readHistoryTrace env ++ [.Get env.api] ++
        [.NewTokenTransport env.token, .DnsListRecords ⟨env.domain⟩] ++
        [.DnsAddRecord (addParams env ip),
         .Info "add record success"
           [.str "host" (env.hostname ++ "." ++ env.domain), .str "value" ip]],
      ⟨hd, hh, ht, ⟨history, hread, hne⟩, hip, hclient, records, hlist,
        by simpa using hcode, Or.inl ⟨hid, reply, hadd⟩⟩, ?_, ?_⟩
    · simp [writes]
    · rw [Run.after_after, Run.after_after]
  · rename_i hid
    unfold updateRecord
    split
    · left; simp [writes]
    rename_i distance hdist
    split
    · left; simp [writes]
    rename_i ttl httl
    split
    · left; simp [writes]
    rename_i reply hupd
    split
    · left; simp [writes]
    right
    refine ⟨ip,
      readHistoryTrace env ++ [.Get env.api] ++
        [.NewTokenTransport env.token, .DnsListRecords ⟨env.domain⟩] ++
        [.DnsUpdateRecord
           ⟨env.domain,
            (findRecord env.hostname env.domain records.Reply.ResourceRecord).RecordID,
            env.hostname, ip, distance, ttl⟩,
         .Info "update record success"
           [.str "host" (env.hostname ++ "." ++ env.domain), .str "value" ip]],
      ⟨hd, hh, ht, ⟨history, hread, hne⟩, hip, hclient, records, hlist,
        by simpa using hcode, Or.inr ⟨hid, distance, ttl, reply, hdist, httl, hupd⟩⟩, ?_, ?_⟩
    · simp [writes]
    · rw [Run.after_after, Run.after_after]

/-- A run in which some step before the write did not return cleanly wrote
nothing. -/
theorem cacheUntouched_of_not_ok (env : Env) (h : ∀ ip, ¬ AllStepsOk env ip) :
    cacheUntouched env := by
  rcases main_cases env with hu | ⟨ip, _, hok, _, _⟩
  · exact hu
  · exact absurd hok (h ip)

/-- When every step returns without error the write is performed, with the
resolved address. -/
theorem writes_of_allStepsOk (env : Env) (ip : String) (h : AllStepsOk env ip) :
    writes (main env).trace = [(historyFilepath env, ip)] := by
  obtain ⟨hd, hh, ht, ⟨history, hread, hne⟩, hip, hclient, records, hlist, hcode, hbranch⟩ := h
  have hcode2 : ¬ records.Reply.Code ≠ "300" := by simp [hcode]
  rw [main_of_changed env history ip hd hh ht hread hip hne,
    reconcile_of_listed env ip records hclient hlist hcode]
  rcases hbranch with ⟨hid, reply, hadd⟩ | ⟨hid, distance, ttl, reply, hdist, httl, hupd⟩
  · rw [if_pos hid]
    unfold addRecord
    simp only [hadd, if_neg hcode2]
    simp [writes, saveIP_writes]
  · rw [if_neg hid]
    unfold updateRecord
    simp only [hdist, httl, hupd, if_neg hcode2]
    simp [writes, saveIP_writes]

/-- C3: a run of `main` that stops on a configuration error, a cache-read
error, a lookup error (transport, a status other than 200 such as 503, or a
body-read error), a provider transport error (client, list, create or update),
a list reply whose code is not 300, or a distance or ttl that does not parse,
performs no cache write and leaves the file system as it was.  When a write is
performed, every step before it returned without error, no earlier effect is a
write, and the write is the last effect of the run, followed at most by the log
entry reporting that the write itself failed; and when every step returns
without error the write is performed, with the resolved address. -/
theorem abort_leaves_cache (env : Env) :
    ((env.domain = "" ∨ env.hostname = "" ∨ env.token = "") → cacheUntouched env) ∧
    (∀ err, readHistory env = .error err → cacheUntouched env) ∧
    (∀ err, (getIP env.api env.Get).2 = some err → cacheUntouched env) ∧
    (∀ code body, env.Get env.api = .response code body → code ≠ 200 →
        cacheUntouched env) ∧
    (∀ err, getNamesiloClient env env.token = some err → cacheUntouched env) ∧
    (∀ err, env.DnsListRecords ⟨env.domain⟩ = .error err → cacheUntouched env) ∧
    (∀ records, env.DnsListRecords ⟨env.domain⟩ = .ok records →
        records.Reply.Code ≠ "300" → cacheUntouched env) ∧
    (∀ ip records err, getIP env.api env.Get = (ip, none) →
        env.DnsListRecords ⟨env.domain⟩ = .ok records →
        (findRecord env.hostname env.domain records.Reply.ResourceRecord).RecordID = "" →
        env.DnsAddRecord (addParams env ip) = .error err → cacheUntouched env) ∧
    (∀ ip records distance ttl err, getIP env.api env.Get = (ip, none) →
        env.DnsListRecords ⟨env.domain⟩ = .ok records →
        (findRecord env.hostname env.domain records.Reply.ResourceRecord).RecordID ≠ "" →
        Atoi (findRecord env.hostname env.domain records.Reply.ResourceRecord).Distance = .ok distance → Atoi (findRecord env.hostname env.domain records.Reply.ResourceRecord).TTL = .ok ttl →
        env.DnsUpdateRecord ⟨env.domain, (findRecord env.hostname env.domain records.Reply.ResourceRecord).RecordID, env.hostname, ip, distance, ttl⟩
          = .error err →
        cacheUntouched env) ∧
    (∀ records, env.DnsListRecords ⟨env.domain⟩ = .ok records →
        (findRecord env.hostname env.domain records.Reply.ResourceRecord).RecordID ≠ "" →
        ((∃ err, Atoi (findRecord env.hostname env.domain records.Reply.ResourceRecord).Distance = .error err) ∨ (∃ err, Atoi (findRecord env.hostname env.domain records.Reply.ResourceRecord).TTL = .error err)) →
        cacheUntouched env) ∧
    (writes (main env).trace ≠ [] →
        ∃ ip pre, AllStepsOk env ip ∧ writes pre = [] ∧
          ((main env).trace = pre ++ [.WriteFile (historyFilepath env) ip] ∨
           ∃ err, (main env).trace
             = pre ++ [.WriteFile (historyFilepath env) ip,
                       .Error "ip write to temp file error" [.err "message" err]])) ∧
    (∀ ip, AllStepsOk env ip → writes (main env).trace = [(historyFilepath env, ip)]) := by
  refine ⟨?_, ?_, ?_, ?_, ?_, ?_, ?_, ?_, ?_, ?_, ?_, ?_⟩
  · intro hcfg
    apply cacheUntouched_of_not_ok
    rintro ip ⟨hd, hh, ht, _⟩
    rcases hcfg with h | h | h
    · exact hd h
    · exact hh h
    · exact ht h
  · intro err herr
    apply cacheUntouched_of_not_ok
    rintro ip ⟨_, _, _, ⟨history, hread, _⟩, _⟩
    rw [herr] at hread
    cases hread
  · intro err herr
    apply cacheUntouched_of_not_ok
    rintro ip ⟨_, _, _, _, hip, _⟩
    rw [hip] at herr
    cases herr
  · intro code body hget hcode
    apply cacheUntouched_of_not_ok
    rintro ip ⟨_, _, _, _, hip, _⟩
    simp [getIP, hget, hcode] at hip
  · intro err herr
    apply cacheUntouched_of_not_ok
    rintro ip ⟨_, _, _, _, _, hclient, _⟩
    rw [herr] at hclient
    cases hclient
  · intro err herr
    apply cacheUntouched_of_not_ok
    rintro ip ⟨_, _, _, _, _, _, records, hlist, _⟩
    rw [herr] at hlist
    cases hlist
  · intro records hrecords hcode
    apply cacheUntouched_of_not_ok
    rintro ip ⟨_, _, _, _, _, _, records2, hlist, hcode2, _⟩
    rw [hrecords] at hlist
    cases hlist
    exact hcode hcode2
  · intro ip records err hip hrecords hid hadd
    apply cacheUntouched_of_not_ok
    rintro ip2 ⟨_, _, _, _, hip2, _, records2, hlist, _, hbranch⟩
    rw [hrecords] at hlist
    cases hlist
    rw [hip] at hip2
    cases hip2
    rcases hbranch with ⟨_, reply, hok⟩ | ⟨hid2, _⟩
    · rw [hadd] at hok
      cases hok
    · exact hid2 hid
  · intro ip records distance ttl err hip hrecords hid hdist httl hupd
    apply cacheUntouched_of_not_ok
    rintro ip2 ⟨_, _, _, _, hip2, _, records2, hlist, _, hbranch⟩
    rw [hrecords] at hlist
    cases hlist
    rw [hip] at hip2
    cases hip2
    rcases hbranch with ⟨hid2, _⟩ | ⟨_, distance2, ttl2, reply, hdist2, httl2, hok⟩
    · exact hid hid2
    · rw [hdist] at hdist2
      cases hdist2
      rw [httl] at httl2
      cases httl2
      rw [hupd] at hok
      cases hok
  · intro records hrecords hid hparse
    apply cacheUntouched_of_not_ok
    rintro ip ⟨_, _, _, _, _, _, records2, hlist, _, hbranch⟩
    rw [hrecords] at hlist
    cases hlist
    rcases hbranch with ⟨hid2, _⟩ | ⟨_, distance, ttl, _, hdist, httl, _⟩
    · exact hid hid2
    · rcases hparse with ⟨e, he⟩ | ⟨e, he⟩
      · rw [hdist] at he
        cases he
      · rw [httl] at he
        cases he
  · intro hw
    rcases main_cases env with hu | ⟨ip, pre, hok, hpre, hmain⟩
    · exact absurd hu.1 hw
    · refine ⟨ip, pre, hok, hpre, ?_⟩
      rw [hmain, Run.after_trace]
      rcases saveIP_trace env ip with h | ⟨err, h⟩
      · exact Or.inl (by rw [h])
      · exact Or.inr ⟨err, by rw [h]⟩
  · exact writes_of_allStepsOk env

/-- C3 at the scenario of the specification: the lookup endpoint answers 503;
the run stops after the lookup, with no provider call and no write. -/
theorem abort_leaves_cache_witness :
    cacheUntouched (scenarioStatus (.content "1.2.3.4") 503) ∧
    (main (scenarioStatus (.content "1.2.3.4") 503)).trace
      = [.Stat "/var/namesilo-ddns-history", .ReadFile "/var/namesilo-ddns-history",
         .Get "https://api.ipify.org",
         .Error "get ip error"
           [.err "message" (.errorString "http response status code [503] is not 200")]] :=
  ⟨(abort_leaves_cache (scenarioStatus (.content "1.2.3.4") 503)).2.2.2.1
      503 (.ok "Service Unavailable") rfl (by decide),
    by decide⟩

/-! ## Which branch is taken -/

section Branches

theorem tookCreatePath_append (xs ys : List Event) :
    tookCreatePath (xs ++ ys) = (tookCreatePath xs || tookCreatePath ys) := by
  simp [tookCreatePath, List.any_append]

theorem tookUpdatePath_append (xs ys : List Event) :
    tookUpdatePath (xs ++ ys) = (tookUpdatePath xs || tookUpdatePath ys) := by
  simp [tookUpdatePath, List.any_append]

theorem tookCreatePath_readHistoryTrace (env : Env) :
    tookCreatePath (readHistoryTrace env) = false := by
  unfold readHistoryTrace; split <;> rfl

theorem tookUpdatePath_readHistoryTrace (env : Env) :
    tookUpdatePath (readHistoryTrace env) = false := by
  unfold readHistoryTrace; split <;> rfl

theorem tookUpdatePath_saveIP (env : Env) (ip : String) :
    tookUpdatePath (saveIP env ip).trace = false := by
  unfold saveIP; split <;> simp [tookUpdatePath]

theorem tookCreatePath_saveIP (env : Env) (ip : String) :
    tookCreatePath (saveIP env ip).trace = false := by
  unfold saveIP; split <;> simp [tookCreatePath]

theorem tookCreatePath_addRecord (env : Env) (ip : String) (records : DnsListRecords) :
    tookCreatePath (addRecord env ip records).trace = true := by
  unfold addRecord
  split
  · simp [tookCreatePath]
  · split <;> simp [tookCreatePath]

theorem tookUpdatePath_addRecord (env : Env) (ip : String) (records : DnsListRecords) :
    tookUpdatePath (addRecord env ip records).trace = false := by
  unfold addRecord
  split
  · simp [tookUpdatePath]
  · split
    · simp [tookUpdatePath]
    · rw [Run.after_trace, tookUpdatePath_append, tookUpdatePath_saveIP]
      simp [tookUpdatePath]

theorem tookUpdatePath_updateRecord (env : Env) (ip : String) (records : DnsListRecords)
    (record : ResourceRecord) :
    tookUpdatePath (updateRecord env ip records record).trace = true := by
  unfold updateRecord
  split
  · simp [tookUpdatePath]
  · split
    · simp [tookUpdatePath]
    · split
      · simp [tookUpdatePath]
      · split <;> simp [tookUpdatePath]

theorem tookCreatePath_updateRecord (env : Env) (ip : String) (records : DnsListRecords)
    (record : ResourceRecord) :
    tookCreatePath (updateRecord env ip records record).trace = false := by
  unfold updateRecord
  split
  · simp [tookCreatePath]
  · split
    · simp [tookCreatePath]
    · split
      · simp [tookCreatePath]
      · split
        · simp [tookCreatePath]
        · rw [Run.after_trace, tookCreatePath_append, tookCreatePath_saveIP]
          simp [tookCreatePath]

theorem tookUpdatePath_prefix (env : Env) (r : Run) :
    tookUpdatePath (Run.after (readHistoryTrace env ++ [.Get env.api])
      (Run.after [.NewTokenTransport env.token, .DnsListRecords ⟨env.domain⟩] r)).trace
      = tookUpdatePath r.trace := by
  rw [Run.after_trace, Run.after_trace, tookUpdatePath_append, tookUpdatePath_append,
    tookUpdatePath_append, tookUpdatePath_readHistoryTrace]
  rfl

theorem tookCreatePath_prefix (env : Env) (r : Run) :
    tookCreatePath (Run.after (readHistoryTrace env ++ [.Get env.api])
      (Run.after [.NewTokenTransport env.token, .DnsListRecords ⟨env.domain⟩] r)).trace
      = tookCreatePath r.trace := by
  rw [Run.after_trace, Run.after_trace, tookCreatePath_append, tookCreatePath_append,
    tookCreatePath_append, tookCreatePath_readHistoryTrace]
  rfl

/-- The scanned record has a non-empty id exactly when the list has a first
match and that match has a non-empty id. -/
theorem findRecord_id_ne_empty_iff (hostname domain : String)
    (records : List ResourceRecord) :
    (findRecord hostname domain records).RecordID ≠ "" ↔
      ∃ record, records.find? (isMatch hostname domain) = some record ∧
        record.RecordID ≠ "" := by
  rw [findRecord_eq_find]
  cases h : records.find? (isMatch hostname domain) with
  | none =>
    simp only [Option.getD_none]
    constructor
    · intro hne
      exact absurd rfl hne
    · rintro ⟨record, hsome, _⟩
      cases hsome
  | some r =>
    simp only [Option.getD_some]
    constructor
    · intro hne
      exact ⟨r, rfl, hne⟩
    · rintro ⟨record, hsome, hne⟩
      cases hsome
      exact hne

end Branches

/-- C10: in a run that gets as far as the scan, whether a match is present is
decided by the id of the scanned record.  When the first listed record with
host `hostname.domain` and type `A` has an empty id, `main` issues one create
call with distance 0 and ttl 7207 and no update call, and the whole run equals
the run in which the listing holds no record at all.  The run enters the update
branch if and only if the scan selected a record with a non-empty id, and the
create branch if and only if it did not. -/
theorem match_presence_by_id (env : Env) (history ip : String) (records : DnsListRecords)
    (hd : env.domain ≠ "") (hh : env.hostname ≠ "") (ht : env.token ≠ "")
    (hread : readHistory env = .ok history)
    (hip : getIP env.api env.Get = (ip, none)) (hne : ip ≠ history)
    (hclient : getNamesiloClient env env.token = none)
    (hlist : env.DnsListRecords ⟨env.domain⟩ = .ok records)
    (hcode : records.Reply.Code = "300") :
    (∀ record others,
        records.Reply.ResourceRecord.find? (isMatch env.hostname env.domain) = some record →
        record.RecordID = "" →
        (∀ r ∈ others, isMatch env.hostname env.domain r = false) →
        addCalls (main env).trace = [⟨env.domain, "A", env.hostname, ip, 0, 7207⟩] ∧
        updateCalls (main env).trace = [] ∧
        (main env).trace = (main (withRecords env others)).trace ∧
        (main env).files = (main (withRecords env others)).files) ∧
    (tookUpdatePath (main env).trace = true ↔
        ∃ record,
          records.Reply.ResourceRecord.find? (isMatch env.hostname env.domain)
            = some record ∧
          record.RecordID ≠ "") ∧
    (tookCreatePath (main env).trace = true ↔
        ¬ ∃ record,
          records.Reply.ResourceRecord.find? (isMatch env.hostname env.domain)
            = some record ∧
          record.RecordID ≠ "") := by
  have hmain := main_of_changed env history ip hd hh ht hread hip hne
  have hrec := reconcile_of_listed env ip records hclient hlist hcode
  refine ⟨?_, ?_, ?_⟩
  · intro record others hfind hid hothers
    have hfound : findRecord env.hostname env.domain records.Reply.ResourceRecord = record := by
      rw [findRecord_eq_find, hfind]; rfl
    have hlist2 : (withRecords env others).DnsListRecords ⟨(withRecords env others).domain⟩
        = .ok (⟨⟨records.Reply.Code, records.Reply.Detail, others⟩⟩ : DnsListRecords) := by
      show (match env.DnsListRecords ⟨env.domain⟩ with
        | .error err => Except.error err
        | .ok r => Except.ok (⟨⟨r.Reply.Code, r.Reply.Detail, others⟩⟩ : DnsListRecords)) = _
      rw [hlist]
    have hmain2 := main_of_changed (withRecords env others) history ip hd hh ht hread hip hne
    have hrec2 := reconcile_of_listed (withRecords env others) ip
      ⟨⟨records.Reply.Code, records.Reply.Detail, others⟩⟩ hclient hlist2 hcode
    have hnone : findRecord env.hostname env.domain others = default :=
      findRecord_of_no_match _ _ _ (fun r hr h => by
        have := hothers r hr
        simp [isMatch, h] at this)
    have hempty : (findRecord (withRecords env others).hostname (withRecords env others).domain
        (⟨⟨records.Reply.Code, records.Reply.Detail, others⟩⟩ :
          DnsListRecords).Reply.ResourceRecord).RecordID = "" := by
      show (findRecord env.hostname env.domain others).RecordID = ""
      rw [hnone]; rfl
    rw [hmain2, hrec2, if_pos hempty, hmain, hrec, hfound, if_pos hid]
    refine ⟨?_, ?_, rfl, rfl⟩
    · simp [addCalls, addRecord_addCalls, addParams]
    · simp [updateCalls, addRecord_updateCalls]
  · rw [← findRecord_id_ne_empty_iff, hmain, hrec, tookUpdatePath_prefix]
    by_cases hid : (findRecord env.hostname env.domain records.Reply.ResourceRecord).RecordID = ""
    · rw [if_pos hid, tookUpdatePath_addRecord]
      simp [hid]
    · rw [if_neg hid, tookUpdatePath_updateRecord]
      simp [hid]
  · rw [← findRecord_id_ne_empty_iff, hmain, hrec, tookCreatePath_prefix]
    by_cases hid : (findRecord env.hostname env.domain records.Reply.ResourceRecord).RecordID = ""
    · rw [if_pos hid, tookCreatePath_addRecord]
      simp [hid]
    · rw [if_neg hid, tookCreatePath_updateRecord]
      simp [hid]

/-- C10 at a concrete run: the first A record for `home.example.com` has an
empty id and is followed by one with id `7`; the run creates, exactly as with an
empty listing, and does not enter the update branch. -/
theorem match_presence_by_id_witness :
    addCalls (main (scenario (.content "1.2.3.4") "5.6.7.8"
        [⟨"", "A", "home.example.com", "1.2.3.4", "3600", "10"⟩,
         ⟨"7", "A", "home.example.com", "1.2.3.4", "3600", "10"⟩])).trace
      = [⟨"example.com", "A", "home", "5.6.7.8", 0, 7207⟩] ∧
    updateCalls (main (scenario (.content "1.2.3.4") "5.6.7.8"
        [⟨"", "A", "home.example.com", "1.2.3.4", "3600", "10"⟩,
         ⟨"7", "A", "home.example.com", "1.2.3.4", "3600", "10"⟩])).trace = [] ∧
    tookUpdatePath (main (scenario (.content "1.2.3.4") "5.6.7.8"
        [⟨"", "A", "home.example.com", "1.2.3.4", "3600", "10"⟩,
         ⟨"7", "A", "home.example.com", "1.2.3.4", "3600", "10"⟩])).trace = false :=
  have h := (match_presence_by_id (scenario (.content "1.2.3.4") "5.6.7.8"
      [⟨"", "A", "home.example.com", "1.2.3.4", "3600", "10"⟩,
       ⟨"7", "A", "home.example.com", "1.2.3.4", "3600", "10"⟩])
    "1.2.3.4" "5.6.7.8"
    ⟨⟨"300", "success",
      [⟨"", "A", "home.example.com", "1.2.3.4", "3600", "10"⟩,
       ⟨"7", "A", "home.example.com", "1.2.3.4", "3600", "10"⟩]⟩⟩
    (by decide) (by decide) (by decide) rfl rfl (by decide) rfl rfl rfl).1
    ⟨"", "A", "home.example.com", "1.2.3.4", "3600", "10"⟩ [] (by decide) rfl (by decide)
  ⟨h.1, h.2.1, by decide⟩

end NamesiloDdns
